import Mathlib

/-!
# Shallow embedding of the analyzer's indicator & signal decision engine

This file embeds, in Lean 4, the parts of the repository that the
specification's claims are about:

* `src/domain/entities.py` — the `MarketData` and `TradingSignal` dataclasses
  with their `__post_init__` validation;
* `src/infrastructure/technical_analysis.py` — the crossover-based
  `generate_signal` decision (direction, stop-loss and take-profit);
* `src/main.py` — the hybrid analyzer: `check_discount_premium`,
  `detect_order_blocks`, `calculate_ob_confidence_hybrid` and
  `generate_trading_signal_hybrid`.

Conventions of the embedding:

* Python floats are embedded as exact rationals (`ℚ`); every numeric literal
  of the source (`1.5`, `0.382`, `1.015`, …) is written as the corresponding
  rational.  No claim under study depends on float rounding at a comparison
  boundary.
* Python `Optional[float]` becomes `Option ℚ`; Python truthiness of such a
  value (`if self.stop_loss:`) is the `truthy` predicate below (`None` and
  `0.0` are falsy).
* A Python dict read `d.get(key, default)` is embedded by a record whose field
  holds the value that read resolves to; the `Indicators` record therefore
  carries exactly the resolved values `generate_trading_signal_hybrid` and
  `detect_order_blocks` consume.
* Raising `ValueError` in `__post_init__` becomes an `Except String` result
  of the checked constructor.
* `logger.info` / `logger.warning` calls that the claims mention are
  embedded by returning the logged lines alongside the result.
-/

/-- `SignalType` from `src/domain/entities.py`. -/
inductive SignalType where
  | BUY
  | SELL
  | HOLD
deriving DecidableEq, Repr

/-- `TrendDirection` from `src/domain/entities.py`
(`BULLISH = 1`, `BEARISH = -1`, `NEUTRAL = 0`). -/
inductive TrendDirection where
  | BULLISH
  | BEARISH
  | NEUTRAL
deriving DecidableEq, Repr

/-- The `MarketData` dataclass from `src/domain/entities.py` (one OHLCV
candle).  The timestamp is embedded as an integer; only its identity matters
to the claims. -/
structure MarketData where
  symbol : String
  timeframe : String
  timestamp : Int
  open_ : ℚ
  high : ℚ
  low : ℚ
  close : ℚ
  volume : ℚ
deriving DecidableEq, Repr

/-- `MarketData.__post_init__` from `src/domain/entities.py` (lines 35–42):
construction raises `ValueError` when `high < low`, when `open ≤ 0` or
`close ≤ 0`, or when `volume < 0`, and succeeds otherwise. -/
def mkMarketData (symbol timeframe : String) (timestamp : Int)
    (open_ high low close volume : ℚ) : Except String MarketData :=
  if high < low then
    .error "High cannot be less than Low"
  else if open_ ≤ 0 ∨ close ≤ 0 then
    .error "Open and Close prices must be positive"
  else if volume < 0 then
    .error "Volume cannot be negative"
  else
    .ok ⟨symbol, timeframe, timestamp, open_, high, low, close, volume⟩

/-- Python truthiness of an `Optional[float]`: `None` and `0.0` are falsy,
every other float is truthy. -/
def truthy : Option ℚ → Bool
  | none => false
  | some x => decide (x ≠ 0)

/-- The `TradingSignal` dataclass from `src/domain/entities.py`
(fields used by the claims; `indicator_values` is omitted as no claim
reads it). -/
structure TradingSignal where
  symbol : String
  signal_type : SignalType
  timestamp : Int
  price : ℚ
  supertrend_value : ℚ
  trend_direction : TrendDirection
  confidence : ℚ
  stop_loss : Option ℚ
  take_profit : Option ℚ
  timeframe : String
deriving DecidableEq, Repr

/-- `TradingSignal.__post_init__` from `src/domain/entities.py`
(lines 94–111).  Note the source guards the stop-loss/take-profit ordering
checks behind Python truthiness (`if self.stop_loss and …`), so the checks
are skipped when the level is `None` or exactly `0.0`. -/
def mkTradingSignal (symbol : String) (signal_type : SignalType)
    (timestamp : Int) (price supertrend_value : ℚ)
    (trend_direction : TrendDirection) (confidence : ℚ)
    (stop_loss take_profit : Option ℚ) (timeframe : String) :
    Except String TradingSignal :=
  if confidence < 0 ∨ confidence > 1 then
    .error "Confidence must be between 0 and 1"
  else if price ≤ 0 then
    .error "Price must be positive"
  else
    let s : TradingSignal :=
      ⟨symbol, signal_type, timestamp, price, supertrend_value,
        trend_direction, confidence, stop_loss, take_profit, timeframe⟩
    match signal_type with
    | .BUY =>
        if truthy stop_loss = true ∧ stop_loss.getD 0 ≥ price then
          .error "Buy signal: stop loss must be below entry price"
        else if truthy take_profit = true ∧ take_profit.getD 0 ≤ price then
          .error "Buy signal: take profit must be above entry price"
        else
          .ok s
    | .SELL =>
        if truthy stop_loss = true ∧ stop_loss.getD 0 ≤ price then
          .error "Sell signal: stop loss must be above entry price"
        else if truthy take_profit = true ∧ take_profit.getD 0 ≥ price then
          .error "Sell signal: take profit must be below entry price"
        else
          .ok s
    | .HOLD => .ok s

example :
    (mkMarketData "BTC/USDT" "1h" 0 5 6 4 5 1).isOk = true := by norm_num [mkMarketData, Except.isOk, Except.toBool]

example :
    (mkMarketData "BTC/USDT" "1h" 0 5 4 6 5 1).isOk = false := by norm_num [mkMarketData, Except.isOk, Except.toBool]

example :
    (mkTradingSignal "BTC/USDT" .BUY 0 100 95 .BULLISH (1/2)
      (some 101) (some 110) "1h").isOk = false := by
  norm_num [mkTradingSignal, truthy, Except.isOk, Except.toBool]

example :
    (mkTradingSignal "BTC/USDT" .BUY 0 100 95 .BULLISH (1/2)
      (some 95) (some 110) "1h").isOk = true := by
  norm_num [mkTradingSignal, truthy, Except.isOk, Except.toBool]

/-- Dynamic support/resistance levels, the result of
`TechnicalAnalysisService.calculate_dynamic_sr`
(`src/infrastructure/technical_analysis.py`, lines 67–79): the nearest pivot
above (`resistance`) and below (`support`) the current price, or `None`. -/
structure SRLevels where
  support : Option ℚ
  resistance : Option ℚ
deriving DecidableEq, Repr

/-- The keyword arguments of the `TradingSignal(...)` construction at
`src/infrastructure/technical_analysis.py` lines 156–162.  The construction
site passes `entry_price`, `support_level` and `resistance_level`, which the
`TradingSignal` dataclass of `src/domain/entities.py` does not declare (a
slip in the source that makes the real call raise `TypeError`); this record
captures the decision the engine reached, field for field as passed. -/
structure TASignal where
  symbol : String
  signal_type : SignalType
  price : ℚ
  supertrend_value : ℚ
  trend_direction : TrendDirection
  entry_price : ℚ
  stop_loss : ℚ
  take_profit : ℚ
  support_level : Option ℚ
  resistance_level : Option ℚ
  timeframe : String
deriving DecidableEq, Repr

/-- The signal-type decision block of
`TechnicalAnalysisService.generate_signal`
(`src/infrastructure/technical_analysis.py`, lines 107–125): the crossover
detection gated by the higher-timeframe trend, together with the
`logger.info` lines it emits. -/
def crossoverDecision (symbol : String) (current_dir prev_dir : Int)
    (higher_timeframe_trend : TrendDirection) :
    Option SignalType × List String :=
  if current_dir = 1 ∧ prev_dir = -1 then
    if higher_timeframe_trend = .BULLISH then
      (some .BUY, ["CONFIRMED BUY signal for " ++ symbol])
    else
      (none, ["IGNORING BUY signal for " ++ symbol ++
        ". 1h trend conflicts with 4h trend."])
  else if current_dir = -1 ∧ prev_dir = 1 then
    if higher_timeframe_trend = .BEARISH then
      (some .SELL, ["CONFIRMED SELL signal for " ++ symbol])
    else
      (none, ["IGNORING SELL signal for " ++ symbol ++
        ". 1h trend conflicts with 4h trend."])
  else (none, [])

/-- The take-profit block of `TechnicalAnalysisService.generate_signal`
(`src/infrastructure/technical_analysis.py`, lines 127–153): risk/reward
target capped by the nearest resistance (BUY) or extended to the nearest
support (SELL) when that level is truthy and beyond the minimum partial
target, followed by the equal-to-entry adjustment.  Returns the take-profit
together with the `logger.warning` line the adjustment emits. -/
def taTakeProfit (symbol : String) (signal_type : SignalType)
    (current_price stop_loss : ℚ) (sr : SRLevels) : ℚ × List String :=
  let risk_reward_ratio : ℚ := 3/2
  let risk := |current_price - stop_loss|
  let take_profit : ℚ :=
    if signal_type = .BUY then
      let potential_tp := current_price + risk * risk_reward_ratio
      let min_tp := current_price + risk * (1/5)
      if truthy sr.resistance = true ∧ sr.resistance.getD 0 > min_tp then
        min potential_tp (sr.resistance.getD 0)
      else
        potential_tp
    else
      let potential_tp := current_price - risk * risk_reward_ratio
      let min_tp := current_price - risk * (1/5)
      if truthy sr.support = true ∧ sr.support.getD 0 < min_tp then
        max potential_tp (sr.support.getD 0)
      else
        potential_tp
  if take_profit = current_price then
    (if signal_type = .BUY then current_price + risk * risk_reward_ratio
     else current_price - risk * risk_reward_ratio,
     ["Take profit is same as entry price for " ++ symbol ++
       ". Adjusting using R/R only."])
  else (take_profit, [])

/-- `TechnicalAnalysisService.generate_signal`
(`src/infrastructure/technical_analysis.py`, lines 92–162).

Inputs are the fields the source reads from its arguments: the current
candle's `close` and `supertrend` values, the current and previous
`supertrend_direction` (`1` bullish / `-1` bearish as produced by
`pandas-ta`), the dynamic support/resistance levels, and the
higher-timeframe trend computed by `analyze_market`.

The result pairs the decided signal (or `none`) with the list of
`logger.info` / `logger.warning` lines the source emits. -/
def generateSignal (symbol : String) (current_close current_supertrend : ℚ)
    (current_dir prev_dir : Int) (sr : SRLevels)
    (higher_timeframe_trend : TrendDirection) :
    Option TASignal × List String :=
  let current_price := current_close
  let primary_trend : TrendDirection :=
    if current_dir = 1 then .BULLISH else .BEARISH
  match crossoverDecision symbol current_dir prev_dir
      higher_timeframe_trend with
  | (none, logs) => (none, logs)
  | (some signal_type, logs) =>
    let stop_loss := current_supertrend
    let tp := taTakeProfit symbol signal_type current_price stop_loss sr
    (some
      { symbol := symbol, signal_type := signal_type, price := current_price,
        supertrend_value := current_supertrend,
        trend_direction := primary_trend, entry_price := current_price,
        stop_loss := stop_loss, take_profit := tp.1,
        support_level := sr.support, resistance_level := sr.resistance,
        timeframe := "1h/4h" },
      logs ++ tp.2)

example :
    (generateSignal "BTC/USDT" 100 90 1 (-1) ⟨none, none⟩ .BULLISH).1 =
      some
        { symbol := "BTC/USDT", signal_type := .BUY, price := 100,
          supertrend_value := 90, trend_direction := .BULLISH,
          entry_price := 100, stop_loss := 90, take_profit := 115,
          support_level := none, resistance_level := none,
          timeframe := "1h/4h" } := by
  norm_num +decide [generateSignal, crossoverDecision, taTakeProfit, truthy]

example :
    (generateSignal "BTC/USDT" 100 90 1 (-1) ⟨none, none⟩ .BEARISH).1 =
      none := by
  norm_num +decide [generateSignal, crossoverDecision, taTakeProfit, truthy]

example :
    (generateSignal "BTC/USDT" 100 90 1 (-1) ⟨none, some 101⟩ .BULLISH).1.map
      TASignal.take_profit = some 115 := by
  norm_num +decide [generateSignal, crossoverDecision, taTakeProfit, truthy]

example :
    (generateSignal "BTC/USDT" 100 90 1 (-1) ⟨none, some 110⟩ .BULLISH).1.map
      TASignal.take_profit = some 110 := by
  norm_num +decide [generateSignal, crossoverDecision, taTakeProfit, truthy]

/-- One OHLCV candle row of the hybrid analyzer's DataFrame
(`src/main.py`).  Rows are listed in chronological order. -/
structure Candle where
  open_ : ℚ
  high : ℚ
  low : ℚ
  close : ℚ
  volume : ℚ
deriving DecidableEq, Repr

/-- `df.tail(n)` for a chronological list of rows: the last `n` rows. -/
def tailN (n : Nat) (l : List Candle) : List Candle :=
  l.drop (l.length - n)

/-- `series.max()` over a non-empty pandas series; the `[]` case is never
reached by the guarded callers below. -/
def seriesMax : List ℚ → ℚ
  | [] => 0
  | x :: xs => xs.foldl max x

/-- `series.min()` over a non-empty pandas series; the `[]` case is never
reached by the guarded callers below. -/
def seriesMin : List ℚ → ℚ
  | [] => 0
  | x :: xs => xs.foldl min x

/-- `series.mean()` over a non-empty pandas series (sum divided by length;
`ℚ` division by zero yields `0`, and no guarded caller reaches the empty
case). -/
def seriesMean (l : List ℚ) : ℚ :=
  l.sum / (l.length : ℚ)

/-- The `territory` strings produced by
`MultiCoinHybridAnalyzer.check_discount_premium` (`src/main.py`,
lines 858–868). -/
inductive Territory where
  | deep_discount
  | discount
  | equilibrium
  | premium
  | deep_premium
deriving DecidableEq, Repr

/-- The fields of the `indicators` dict of
`MultiCoinHybridAnalyzer.calculate_technical_indicators` (`src/main.py`,
lines 420–454) that the structure analyzer and the hybrid signal generator
read.  Each field holds the value the corresponding
`indicators.get(key, default)` read resolves to (when
`calculate_technical_indicators` returns `{}` the `.get` defaults apply:
`trend_alignment = "neutral"`, `entry_readiness = "not_ready"`,
`structure_strength = "weak"`, `hybrid_confidence = 0.5`, `rsi = 50`,
`macd_signal_trend = "neutral"`, `bb_position = "N/A"`). -/
structure Indicators where
  trend_alignment : String
  entry_readiness : String
  structure_strength : String
  hybrid_confidence : ℚ
  rsi : ℚ
  macd_signal_trend : String
  bb_position : String
  atr : ℚ
deriving DecidableEq, Repr

/-- The part of `MultiCoinHybridAnalyzer.detect_market_structure`'s result
dict (`src/main.py`, lines 702–706) read downstream: the `trend` string
(`"uptrend"`, `"downtrend"` or `"sideways"`). -/
structure StructureResult where
  trend : String
deriving DecidableEq, Repr

/-- The part of `MultiCoinHybridAnalyzer.detect_manipulation_phase`'s result
dict (`src/main.py`, lines 931–942) read by the signal generator. -/
structure ManipulationResult where
  is_manipulation_phase : Bool
  atr : ℚ
deriving DecidableEq, Repr

/-- Result dict of `MultiCoinHybridAnalyzer.check_discount_premium`
(`src/main.py`, lines 832–899).  The zero-range and error branches return
only `territory`, `current_price` and `percentage_in_range`; the remaining
keys are absent there, which the downstream `.get('hybrid_confirmation',
False)` read resolves to the defaults recorded here. -/
structure DiscountPremiumResult where
  territory : Territory
  current_price : ℚ
  percentage_in_range : ℚ
  swing_high : Option ℚ := none
  swing_low : Option ℚ := none
  equilibrium : Option ℚ := none
  technical_bias : String := "neutral"
  hybrid_confirmation : Bool := false
deriving DecidableEq, Repr

/-- The territory classification chain of `check_discount_premium`
(`src/main.py`, lines 858–868), on the precomputed Fibonacci levels. -/
def classifyTerritory (current_price deep_discount discount_zone
    premium_zone deep_premium : ℚ) : Territory :=
  if current_price < deep_discount then .deep_discount
  else if current_price < discount_zone then .discount
  else if current_price > deep_premium then .deep_premium
  else if current_price > premium_zone then .premium
  else .equilibrium

/-- `MultiCoinHybridAnalyzer.check_discount_premium` (`src/main.py`,
lines 832–899): high/low of the most recent `min(50, len(df))` candles,
Fibonacci levels at 23.6 % / 38.2 % / 61.8 % / 76.4 % of that range, and the
territory classification; a zero range short-circuits to `equilibrium`
before any division by the range.  An empty frame would raise inside the
`try` and return the `except` fallback (`current_price = 0`). -/
def checkDiscountPremium (df : List Candle) (ind : Indicators) :
    DiscountPremiumResult :=
  match df.getLast? with
  | none => { territory := .equilibrium, current_price := 0,
              percentage_in_range := 50 }
  | some lastRow =>
    let lookback := min 50 df.length
    let recent := tailN lookback df
    let swing_high := seriesMax (recent.map Candle.high)
    let swing_low := seriesMin (recent.map Candle.low)
    let current_price := lastRow.close
    let equilibrium := (swing_high + swing_low) / 2
    let range_size := swing_high - swing_low
    if range_size = 0 then
      { territory := .equilibrium, current_price := current_price,
        percentage_in_range := 50 }
    else
      let discount_zone := swing_low + range_size * (382/1000)
      let premium_zone := swing_low + range_size * (618/1000)
      let deep_discount := swing_low + range_size * (236/1000)
      let deep_premium := swing_low + range_size * (764/1000)
      let territory := classifyTerritory current_price deep_discount
        discount_zone premium_zone deep_premium
      let technical_bias : String :=
        if (territory = .discount ∨ territory = .deep_discount) then
          if (ind.trend_alignment = "bullish" ∨
              ind.trend_alignment = "strong_bullish") ∧
             (ind.entry_readiness = "buy_ready" ∨
              ind.entry_readiness = "bullish_setup") then
            "strong_discount_with_confirmation"
          else "neutral"
        else if (territory = .premium ∨ territory = .deep_premium) then
          if (ind.trend_alignment = "bearish" ∨
              ind.trend_alignment = "strong_bearish") ∧
             (ind.entry_readiness = "sell_ready" ∨
              ind.entry_readiness = "bearish_setup") then
            "strong_premium_with_confirmation"
          else "neutral"
        else "neutral"
      { territory := territory, current_price := current_price,
        percentage_in_range := (current_price - swing_low) / range_size * 100,
        swing_high := some swing_high, swing_low := some swing_low,
        equilibrium := some equilibrium, technical_bias := technical_bias,
        hybrid_confirmation :=
          decide (ind.trend_alignment ≠ "neutral") &&
          decide (ind.entry_readiness ≠ "not_ready") }

/-- Order-block type strings of `detect_order_blocks` (`src/main.py`). -/
inductive OBType where
  | bullish
  | bearish
deriving DecidableEq, Repr

/-- An order-block candidate dict of
`MultiCoinHybridAnalyzer.detect_order_blocks` (`src/main.py`, lines 741–766).
`timestamp` is the candle's index within the scanned 30-candle window. -/
structure OrderBlock where
  type : OBType
  timestamp : Nat
  high : ℚ
  low : ℚ
  confidence : ℚ
  volume : ℚ
deriving DecidableEq, Repr

/-- `MultiCoinHybridAnalyzer.calculate_ob_confidence_hybrid` (`src/main.py`,
lines 776–830).  The sequential `confidence += bonus` steps of the source are
written as a sum of conditional increments, in source order. -/
def calculateObConfidenceHybrid (candle : Candle) (df : List Candle)
    (ob_type : OBType) (ind : Indicators) : ℚ :=
  let avg_volume := seriesMean (df.map Candle.volume)
  let volume_ratio := candle.volume / avg_volume
  let body_size := |candle.close - candle.open_|
  let candle_range := candle.high - candle.low
  let confidence : ℚ := 1/2
    + (if volume_ratio > 5/2 then 1/4
       else if volume_ratio > 9/5 then 3/20 else 0)
    + (if candle_range > 0 then
         (if body_size / candle_range > 4/5 then 1/5
          else if body_size / candle_range > 3/5 then 1/10 else 0)
       else 0)
    + (if (ob_type = .bullish ∧ (ind.trend_alignment = "bullish" ∨
            ind.trend_alignment = "strong_bullish")) ∨
          (ob_type = .bearish ∧ (ind.trend_alignment = "bearish" ∨
            ind.trend_alignment = "strong_bearish")) then 3/20 else 0)
    + (if (ob_type = .bullish ∧ (ind.entry_readiness = "buy_ready" ∨
            ind.entry_readiness = "bullish_setup")) ∨
          (ob_type = .bearish ∧ (ind.entry_readiness = "sell_ready" ∨
            ind.entry_readiness = "bearish_setup")) then 1/10 else 0)
    + (if ob_type = .bullish ∧ ind.rsi < 45 then 2/25
       else if ob_type = .bearish ∧ ind.rsi > 55 then 2/25 else 0)
    + (if (ob_type = .bullish ∧ ind.macd_signal_trend = "bullish") ∨
          (ob_type = .bearish ∧ ind.macd_signal_trend = "bearish")
       then 7/100 else 0)
  min confidence 1

/-- Stable insertion of an order block into a confidence-descending list:
the new element goes after every element whose confidence is `≥` its own,
matching the stability of Python's `list.sort(key=…, reverse=True)` for
elements appended later. -/
def insertByConfDesc (ob : OrderBlock) : List OrderBlock → List OrderBlock
  | [] => [ob]
  | h :: t =>
      if h.confidence ≥ ob.confidence then h :: insertByConfDesc ob t
      else ob :: h :: t

/-- `order_blocks.sort(key=lambda x: x['confidence'], reverse=True)`
(`src/main.py`, line 769): stable sort by confidence, descending. -/
def sortByConfDesc : List OrderBlock → List OrderBlock
  | [] => []
  | h :: t => insertByConfDesc h (sortByConfDesc t)

/-- The per-candle step of the `for i in range(3, len(recent_df) - 1)` loop
of `detect_order_blocks` (`src/main.py`, lines 723–766): the candidate the
iteration at index `i` appends, if any. -/
def orderBlockAt (recent : List Candle) (volume_threshold atr : ℚ)
    (trend : String) (ind : Indicators) (i : Nat) : Option OrderBlock :=
  match recent.get? i with
  | none => none
  | some current =>
    let body_size := |current.close - current.open_|
    let candle_range := current.high - current.low
    if current.volume < volume_threshold ∨
        body_size < candle_range * (1/2) then none
    else if trend = "uptrend" ∧ current.close > current.open_ ∧
        body_size > atr * (7/10) then
      let future := recent.drop (i + 1)
      if future ≠ [] ∧
          seriesMax (future.map Candle.high) > current.high * (1015/1000) then
        some { type := .bullish, timestamp := i, high := current.high,
               low := current.low,
               confidence :=
                 calculateObConfidenceHybrid current recent .bullish ind,
               volume := current.volume }
      else none
    else if trend = "downtrend" ∧ current.close < current.open_ ∧
        body_size > atr * (7/10) then
      let future := recent.drop (i + 1)
      if future ≠ [] ∧
          seriesMin (future.map Candle.low) < current.low * (985/1000) then
        some { type := .bearish, timestamp := i, high := current.high,
               low := current.low,
               confidence :=
                 calculateObConfidenceHybrid current recent .bearish ind,
               volume := current.volume }
      else none
    else none

/-- `MultiCoinHybridAnalyzer.detect_order_blocks` (`src/main.py`,
lines 712–774): scan the last 30 candles, collect the candidates of
`orderBlockAt` for `i ∈ [3, len-2]`, sort by confidence descending and keep
the top 3.  The `atr` value is the `indicators.get('atr', …)` read (the
dict always carries the key when non-empty; see `Indicators`). -/
def detectOrderBlocks (df : List Candle) (struct : StructureResult)
    (ind : Indicators) : List OrderBlock :=
  if struct.trend = "sideways" then []
  else
    let recent := tailN 30 df
    let atr := ind.atr
    let volume_threshold := seriesMean (recent.map Candle.volume) * (7/5)
    let order_blocks :=
      ((List.range recent.length).filter (fun i => 3 ≤ i ∧ i < recent.length - 1)).filterMap
        (orderBlockAt recent volume_threshold atr struct.trend ind)
    (sortByConfDesc order_blocks).take 3

/-- The part of `get_market_data`'s dict (`src/main.py`, lines 376–389) read
by the signal generator: the 24-hour quote volume. -/
structure MarketInfo where
  volume_24h : ℚ
deriving DecidableEq, Repr

/-- The configuration values `generate_trading_signal_hybrid` reads
(`src/main.py`, lines 1020–1025 and 1078–1081), with the source's
`.get(…, default)` defaults. -/
structure StrategyConfig where
  order_block_confidence_threshold : ℚ := 7/10
  min_confidence_for_signal : ℚ := 3/4
  stop_loss_atr_multiplier : ℚ := 3/2
  take_profit_atr_multiplier : ℚ := 16/5
deriving DecidableEq, Repr

/-- The signal dict produced by `generate_trading_signal_hybrid`
(`src/main.py`, lines 999–1017): the fields the claims read. -/
structure HybridSignal where
  action : String
  confidence : ℚ
  entry_price : ℚ
  stop_loss : ℚ
  take_profit : ℚ
  risk_reward_ratio : ℚ
deriving DecidableEq, Repr

/-- The BUY-side `hybrid_score` accumulation of
`generate_trading_signal_hybrid` (`src/main.py`, lines 1046–1068): base 0.5
plus the sequential conditional increments, in source order. -/
def hybridBuyScore (dp : DiscountPremiumResult) (ind : Indicators)
    (md : MarketInfo) : ℚ :=
  let s : ℚ := 1/2
  let s := if ind.trend_alignment = "bullish" ∨
      ind.trend_alignment = "strong_bullish" then s + 1/4 else s
  let s := if ind.structure_strength = "strong" ∨
      ind.structure_strength = "very_strong" then s + 3/20 else s
  let s := if ind.entry_readiness = "buy_ready" ∨
      ind.entry_readiness = "bullish_setup" then s + 3/20 else s
  let s := if ind.rsi < 50 then s + 1/20 else s
  let s := if ind.rsi < 35 then s + 1/20 else s
  let s := if ind.macd_signal_trend = "bullish" then s + 2/25 else s
  let s := if ind.bb_position = "Below Lower" ∨
      ind.bb_position = "Lower Half" then s + 1/20 else s
  let s := if md.volume_24h > 5000000 then s + 1/20 else s
  let s := if dp.hybrid_confirmation = true then s + 2/25 else s
  s

/-- The SELL-side `hybrid_score` accumulation of
`generate_trading_signal_hybrid` (`src/main.py`, lines 1102–1124): base 0.5
plus the sequential conditional increments, in source order. -/
def hybridSellScore (dp : DiscountPremiumResult) (ind : Indicators)
    (md : MarketInfo) : ℚ :=
  let s : ℚ := 1/2
  let s := if ind.trend_alignment = "bearish" ∨
      ind.trend_alignment = "strong_bearish" then s + 1/4 else s
  let s := if ind.structure_strength = "strong" ∨
      ind.structure_strength = "very_strong" then s + 3/20 else s
  let s := if ind.entry_readiness = "sell_ready" ∨
      ind.entry_readiness = "bearish_setup" then s + 3/20 else s
  let s := if ind.rsi > 50 then s + 1/20 else s
  let s := if ind.rsi > 65 then s + 1/20 else s
  let s := if ind.macd_signal_trend = "bearish" then s + 2/25 else s
  let s := if ind.bb_position = "Above Upper" ∨
      ind.bb_position = "Upper Half" then s + 1/20 else s
  let s := if md.volume_24h > 5000000 then s + 1/20 else s
  let s := if dp.hybrid_confirmation = true then s + 2/25 else s
  s

/-- `max(bullish_obs, key=lambda x: x['confidence'])` (`src/main.py`,
lines 1043 and 1099): Python's `max` returns the first element attaining
the maximal key. -/
def maxByConfidence (h : OrderBlock) (t : List OrderBlock) : OrderBlock :=
  t.foldl (fun acc ob => if ob.confidence > acc.confidence then ob else acc) h

/-- `MultiCoinHybridAnalyzer.generate_trading_signal_hybrid`
(`src/main.py`, lines 994–1145).  The dict is initialised to the `hold`
signal and mutated only inside the BUY / SELL branches; the embedding
returns the final dict. -/
def generateTradingSignalHybrid (df : List Candle)
    (struct : StructureResult) (order_blocks : List OrderBlock)
    (dp : DiscountPremiumResult) (manip : ManipulationResult)
    (ind : Indicators) (md : MarketInfo) (cfg : StrategyConfig) :
    HybridSignal :=
  let hold : HybridSignal :=
    { action := "hold", confidence := 0, entry_price := 0, stop_loss := 0,
      take_profit := 0, risk_reward_ratio := 0 }
  if (dp.territory = .discount ∨ dp.territory = .deep_discount) ∧
      order_blocks ≠ [] ∧ manip.is_manipulation_phase = true ∧
      ind.hybrid_confidence ≥ 13/20 then
    match order_blocks.filter (fun ob =>
        ob.type = .bullish ∧
        ob.confidence ≥ cfg.order_block_confidence_threshold) with
    | [] => hold
    | h :: t =>
      let best_ob := maxByConfidence h t
      let final_confidence := min (hybridBuyScore dp ind md) 1
      if final_confidence ≥ cfg.min_confidence_for_signal then
        let atr := ind.atr
        let entry_price := best_ob.low
        let stop_loss := entry_price - atr * cfg.stop_loss_atr_multiplier
        let take_profit := entry_price + atr * cfg.take_profit_atr_multiplier
        { action := "buy", confidence := final_confidence,
          entry_price := entry_price, stop_loss := stop_loss,
          take_profit := take_profit,
          risk_reward_ratio :=
            if entry_price ≠ stop_loss then
              |take_profit - entry_price| / |entry_price - stop_loss|
            else 0 }
      else hold
  else if (dp.territory = .premium ∨ dp.territory = .deep_premium) ∧
      order_blocks ≠ [] ∧ manip.is_manipulation_phase = true ∧
      ind.hybrid_confidence ≥ 13/20 then
    match order_blocks.filter (fun ob =>
        ob.type = .bearish ∧
        ob.confidence ≥ cfg.order_block_confidence_threshold) with
    | [] => hold
    | h :: t =>
      let best_ob := maxByConfidence h t
      let final_confidence := min (hybridSellScore dp ind md) 1
      if final_confidence ≥ cfg.min_confidence_for_signal then
        let atr := ind.atr
        let entry_price := best_ob.high
        let stop_loss := entry_price + atr * cfg.stop_loss_atr_multiplier
        let take_profit := entry_price - atr * cfg.take_profit_atr_multiplier
        { action := "sell", confidence := final_confidence,
          entry_price := entry_price, stop_loss := stop_loss,
          take_profit := take_profit,
          risk_reward_ratio :=
            if stop_loss ≠ entry_price then
              |entry_price - take_profit| / |stop_loss - entry_price|
            else 0 }
      else hold
  else hold

/-- A sample bullish order block used by concrete instantiations below. -/
def obBull : OrderBlock :=
  { type := .bullish, timestamp := 0, high := 110, low := 100,
    confidence := 1, volume := 1000 }

/-- A sample discount-territory zone context used by concrete
instantiations below. -/
def dpDiscount : DiscountPremiumResult :=
  { territory := .discount, current_price := 100,
    percentage_in_range := 30 }

/-- A sample fully bullish indicator record (parametrised by ATR) used by
concrete instantiations below. -/
def indBuy (atr : ℚ) : Indicators :=
  { trend_alignment := "bullish", entry_readiness := "buy_ready",
    structure_strength := "strong", hybrid_confidence := 7/10, rsi := 30,
    macd_signal_trend := "bullish", bb_position := "Below Lower",
    atr := atr }

/-- A sample manipulation-phase result used by concrete instantiations
below. -/
def manipOn : ManipulationResult := { is_manipulation_phase := true, atr := 1 }

/-- A sample valid BUY `TradingSignal` used by concrete instantiations
below. -/
def sigBuySample : TradingSignal :=
  { symbol := "BTC/USDT", signal_type := .BUY, timestamp := 0, price := 100,
    supertrend_value := 95, trend_direction := .BULLISH, confidence := 1/2,
    stop_loss := some 95, take_profit := some 110, timeframe := "1h" }

/-- Modelled from the spec: "disagreement degrades the event to `HOLD` with
the conflict recorded in `supportingFactors`".  The source `TradingSignal`
(and the construction-site record `TASignal`) carries no `supportingFactors`
field at all, so the weakest faithful reading — that an emitted signal
exists in which the conflict could be recorded — is the predicate used for
the refutation. -/
def conflictRecordedInEmittedSignal (r : Option TASignal) : Prop :=
  ∃ s, r = some s

/-- The take-profit value the engine emits for the sample BUY crossover at
price 100, supertrend 90 and resistance 120 (risk 10, target 115). -/
def taSig115 : TASignal :=
  { symbol := "BTC/USDT", signal_type := .BUY, price := 100,
    supertrend_value := 90, trend_direction := .BULLISH, entry_price := 100,
    stop_loss := 90, take_profit := 115, support_level := none,
    resistance_level := some 120, timeframe := "1h/4h" }

/-- A sample flat-bodied candle with a 0–10 trading range, used by
concrete instantiations below. -/
def candleW : Candle :=
  { open_ := 1, high := 10, low := 0, close := 5, volume := 1 }

/-- A 50-candle series of `candleW`, used by concrete instantiations
below. -/
def dfW : List Candle := List.replicate 50 candleW

/-- A fully neutral indicator record, used by concrete instantiations
below. -/
def indNeutral : Indicators :=
  { trend_alignment := "neutral", entry_readiness := "not_ready",
    structure_strength := "weak", hybrid_confidence := 1/2, rsi := 50,
    macd_signal_trend := "neutral", bb_position := "N/A", atr := 1 }

/-- A degenerate candle (zero range, zero volume), used by concrete
instantiations below. -/
def flatCandle : Candle :=
  { open_ := 5, high := 5, low := 5, close := 5, volume := 0 }

/-- A flat zero-variance series of 60 identical candles, used by concrete
instantiations below. -/
def dfFlat : List Candle := List.replicate 60 flatCandle

/-- A 5-candle series whose fourth candle is a bullish order-block
candidate with a body of exactly half its range, used by concrete
instantiations below. -/
def dfOB : List Candle :=
  [{ open_ := 100, high := 101, low := 99, close := 100, volume := 100 },
   { open_ := 100, high := 101, low := 99, close := 100, volume := 100 },
   { open_ := 100, high := 101, low := 99, close := 100, volume := 100 },
   { open_ := 100, high := 110, low := 100, close := 105, volume := 1000 },
   { open_ := 105, high := 112, low := 104, close := 106, volume := 100 }]

/-- The order block `detect_order_blocks` retains on `dfOB`, used by
concrete instantiations below. -/
def obW : OrderBlock :=
  { type := .bullish, timestamp := 3, high := 110, low := 100,
    confidence := 3/4, volume := 1000 }

/-! ## Helper lemmas -/

lemma le_ite_step {c : Prop} [Decidable c] {a b k : ℚ} (h : a ≤ b)
    (hk : 0 ≤ k) : a ≤ if c then b + k else b := by
  split <;> linarith

lemma hybridBuyScore_ge_half (dp : DiscountPremiumResult) (ind : Indicators)
    (md : MarketInfo) : 1/2 ≤ hybridBuyScore dp ind md := by
  simp only [hybridBuyScore]
  iterate 9 refine le_ite_step ?_ (by norm_num)
  exact le_refl _

lemma hybridSellScore_ge_half (dp : DiscountPremiumResult) (ind : Indicators)
    (md : MarketInfo) : 1/2 ≤ hybridSellScore dp ind md := by
  simp only [hybridSellScore]
  iterate 9 refine le_ite_step ?_ (by norm_num)
  exact le_refl _

/-! ## C9 — MarketData construction -/

/-- C9 (counterexample): the claim "for every constructed candle
open/high/low/close are positive, high ≥ max(open, close, low), low ≤
min(open, close, high)" fails: `MarketData(open=5, high=-1, low=-2, close=5,
volume=0)` is constructed successfully although its high is negative and
below both open and close. -/
theorem C9_counterexample :
    (mkMarketData "BTC/USDT" "1h" 0 5 (-1) (-2) 5 0).isOk = true ∧
      (-1 : ℚ) < 5 ∧ (-1 : ℚ) < 0 := by
  refine ⟨?_, by norm_num, by norm_num⟩
  norm_num [mkMarketData, Except.isOk, Except.toBool]

/-- C9 (amended): `MarketData` construction succeeds exactly when
`low ≤ high`, `open > 0`, `close > 0` and `volume ≥ 0`; the envelope
`high ≥ max(open, close, low)` / `low ≤ min(open, close, high)` and the
positivity of `high`/`low` are not enforced. -/
theorem C9_marketdata_validation (symbol timeframe : String)
    (timestamp : Int) (open_ high low close volume : ℚ) :
    (mkMarketData symbol timeframe timestamp open_ high low close
        volume).isOk = true ↔
      low ≤ high ∧ 0 < open_ ∧ 0 < close ∧ 0 ≤ volume := by
  unfold mkMarketData
  split_ifs with h1 h2 h3
  · simp only [Except.isOk, Except.toBool, Bool.false_eq_true, false_iff]
    rintro ⟨hlh, -, -, -⟩
    linarith
  · simp only [Except.isOk, Except.toBool, Bool.false_eq_true, false_iff]
    rintro ⟨-, ho, hc, -⟩
    rcases h2 with h | h <;> linarith
  · simp only [Except.isOk, Except.toBool, Bool.false_eq_true, false_iff]
    rintro ⟨-, -, -, hv⟩
    linarith
  · simp only [Except.isOk, Except.toBool, true_iff]
    push_neg at h2
    exact ⟨not_lt.mp h1, h2.1, h2.2, not_lt.mp h3⟩

/-! ## C10 — truthiness guard in TradingSignal construction -/

/-- C10: when the stop-loss and take-profit are Python-falsy (`None` or
exactly `0.0`), `TradingSignal.__post_init__` skips the buy/sell ordering
checks entirely: construction succeeds exactly when the basic confidence
and price checks pass, for every signal type. -/
theorem C10_truthiness_skips_checks (symbol : String)
    (signal_type : SignalType) (timestamp : Int)
    (price supertrend_value : ℚ) (trend_direction : TrendDirection)
    (confidence : ℚ) (stop_loss take_profit : Option ℚ) (timeframe : String)
    (hsl : truthy stop_loss = false) (htp : truthy take_profit = false) :
    (mkTradingSignal symbol signal_type timestamp price supertrend_value
        trend_direction confidence stop_loss take_profit
        timeframe).isOk = true ↔
      0 ≤ confidence ∧ confidence ≤ 1 ∧ 0 < price := by
  unfold mkTradingSignal
  have hbad : ∀ h : Prop, confidence < 0 ∨ confidence > 1 →
      ¬(0 ≤ confidence ∧ confidence ≤ 1 ∧ h) := by
    rintro h hc ⟨h0, h1, -⟩
    rcases hc with hc | hc <;> linarith
  cases signal_type
  case BUY =>
    dsimp only
    split_ifs with h1 h2 h3 h4
    · simpa only [Except.isOk, Except.toBool, Bool.false_eq_true,
        false_iff] using hbad _ h1
    · simp only [Except.isOk, Except.toBool, Bool.false_eq_true, false_iff]
      rintro ⟨-, -, hp⟩
      linarith
    · simp [hsl] at h3
    · simp [htp] at h4
    · simp only [Except.isOk, Except.toBool, true_iff]
      push_neg at h1
      exact ⟨h1.1, h1.2, not_le.mp h2⟩
  case SELL =>
    dsimp only
    split_ifs with h1 h2 h3 h4
    · simpa only [Except.isOk, Except.toBool, Bool.false_eq_true,
        false_iff] using hbad _ h1
    · simp only [Except.isOk, Except.toBool, Bool.false_eq_true, false_iff]
      rintro ⟨-, -, hp⟩
      linarith
    · simp [hsl] at h3
    · simp [htp] at h4
    · simp only [Except.isOk, Except.toBool, true_iff]
      push_neg at h1
      exact ⟨h1.1, h1.2, not_le.mp h2⟩
  case HOLD =>
    dsimp only
    split_ifs with h1 h2
    · simpa only [Except.isOk, Except.toBool, Bool.false_eq_true,
        false_iff] using hbad _ h1
    · simp only [Except.isOk, Except.toBool, Bool.false_eq_true, false_iff]
      rintro ⟨-, -, hp⟩
      linarith
    · simp only [Except.isOk, Except.toBool, true_iff]
      push_neg at h1
      exact ⟨h1.1, h1.2, not_le.mp h2⟩

/-- C10 (witness): a BUY signal with `take_profit = 0.0` — a value below its
entry price — is constructed without an error. -/
theorem C10_witness :
    truthy (none : Option ℚ) = false ∧ truthy (some (0 : ℚ)) = false ∧
      (mkTradingSignal "BTC/USDT" .BUY 0 100 95 .BULLISH (1/2) none
        (some 0) "1h").isOk = true := by
  refine ⟨rfl, by simp [truthy], ?_⟩
  exact (C10_truthiness_skips_checks "BTC/USDT" .BUY 0 100 95 .BULLISH (1/2)
    none (some 0) "1h" rfl (by simp [truthy])).mpr (by norm_num)

/-! ## C1 — signal invariants -/

/-- C1 (counterexample): both halves of the claim fail on the code.
With a zero ATR the hybrid engine emits an `action = "buy"` signal whose
stop-loss and take-profit both equal the entry price, so
`stopLoss < entryPrice < takeProfit` does not hold for that emitted buy
signal; and a BUY `TradingSignal` whose take-profit `0.0` lies below its
entry price `200` is constructed without being rejected (the truthiness
guard skips the check). -/
theorem C1_counterexample :
    (generateTradingSignalHybrid [] ⟨"uptrend"⟩ [obBull] dpDiscount manipOn
        (indBuy 0) ⟨6000000⟩ {} =
      { action := "buy", confidence := 1, entry_price := 100,
        stop_loss := 100, take_profit := 100, risk_reward_ratio := 0 }) ∧
      ¬((100 : ℚ) < 100) ∧
      (mkTradingSignal "ETH/USDT" .BUY 0 200 190 .BULLISH (3/4) none
          (some 0) "1h").isOk = true ∧ (0 : ℚ) < 200 := by
  refine ⟨?_, by norm_num, ?_, by norm_num⟩
  · norm_num [generateTradingSignalHybrid, hybridBuyScore, maxByConfidence,
      obBull, dpDiscount, indBuy, manipOn, List.filter]
  · norm_num [mkTradingSignal, truthy, Except.isOk, Except.toBool]

/-- C1 (amended): (a) every signal the hybrid engine emits has confidence
in `[0, 1]`, and whenever the ATR and the configured stop/take multipliers
are positive, an emitted buy satisfies `stopLoss < entryPrice < takeProfit`
and an emitted sell the mirrored inequality; (b) a successfully constructed
`TradingSignal` has confidence in `[0, 1]` and positive price, and satisfies
the buy/sell price-ordering constraints whenever the respective stop/take
level is non-`None` and non-zero (Python-truthy). -/
theorem C1_signal_invariants :
    (∀ df struct order_blocks dp manip ind md cfg,
      0 < cfg.stop_loss_atr_multiplier → 0 < cfg.take_profit_atr_multiplier →
      0 < ind.atr →
      let s := generateTradingSignalHybrid df struct order_blocks dp manip
        ind md cfg
      (0 ≤ s.confidence ∧ s.confidence ≤ 1) ∧
      (s.action = "buy" →
        s.stop_loss < s.entry_price ∧ s.entry_price < s.take_profit) ∧
      (s.action = "sell" →
        s.take_profit < s.entry_price ∧ s.entry_price < s.stop_loss)) ∧
    (∀ symbol signal_type timestamp price supertrend_value trend_direction
        confidence stop_loss take_profit timeframe s,
      mkTradingSignal symbol signal_type timestamp price supertrend_value
        trend_direction confidence stop_loss take_profit timeframe = .ok s →
      (0 ≤ s.confidence ∧ s.confidence ≤ 1 ∧ 0 < s.price) ∧
      (s.signal_type = .BUY →
        (∀ x, s.stop_loss = some x → x ≠ 0 → x < s.price) ∧
        (∀ x, s.take_profit = some x → x ≠ 0 → s.price < x)) ∧
      (s.signal_type = .SELL →
        (∀ x, s.stop_loss = some x → x ≠ 0 → s.price < x) ∧
        (∀ x, s.take_profit = some x → x ≠ 0 → x < s.price))) := by
  constructor
  · intro df struct order_blocks dp manip ind md cfg hsl htp hatr
    unfold generateTradingSignalHybrid
    have hbuy := hybridBuyScore_ge_half dp ind md
    have hsell := hybridSellScore_ge_half dp ind md
    have hmulsl := mul_pos hatr hsl
    have hmultp := mul_pos hatr htp
    split_ifs with h1 h2
    · split
      · exact ⟨⟨by norm_num, by norm_num⟩, by simp, by simp⟩
      · dsimp only
        split_ifs with hc hrr <;>
          first
            | exact ⟨⟨le_min (by linarith) (by norm_num), min_le_right _ _⟩,
                fun _ => ⟨by dsimp only; linarith, by dsimp only; linarith⟩,
                by simp⟩
            | exact ⟨⟨by norm_num, by norm_num⟩, by simp, by simp⟩
    · split
      · exact ⟨⟨by norm_num, by norm_num⟩, by simp, by simp⟩
      · dsimp only
        split_ifs with hc hrr <;>
          first
            | exact ⟨⟨le_min (by linarith) (by norm_num), min_le_right _ _⟩,
                by simp,
                fun _ => ⟨by dsimp only; linarith, by dsimp only; linarith⟩⟩
            | exact ⟨⟨by norm_num, by norm_num⟩, by simp, by simp⟩
    · exact ⟨⟨by norm_num, by norm_num⟩, by simp, by simp⟩
  · intro symbol signal_type timestamp price supertrend_value trend_direction
      confidence stop_loss take_profit timeframe s h
    cases signal_type
    case BUY =>
      unfold mkTradingSignal at h
      dsimp only at h
      split_ifs at h with h1 h2 h3 h4
      push_neg at h1 h3 h4
      obtain rfl : _ = s := by simpa using h
      dsimp only
      refine ⟨⟨h1.1, h1.2, not_le.mp h2⟩, fun _ => ⟨?_, ?_⟩, by simp⟩
      · intro x hx hxne
        subst hx
        have := h3 (by simp [truthy, hxne])
        simpa using this
      · intro x hx hxne
        subst hx
        have := h4 (by simp [truthy, hxne])
        simpa using this
    case SELL =>
      unfold mkTradingSignal at h
      dsimp only at h
      split_ifs at h with h1 h2 h3 h4
      push_neg at h1 h3 h4
      obtain rfl : _ = s := by simpa using h
      dsimp only
      refine ⟨⟨h1.1, h1.2, not_le.mp h2⟩, by simp, fun _ => ⟨?_, ?_⟩⟩
      · intro x hx hxne
        subst hx
        have := h3 (by simp [truthy, hxne])
        simpa using this
      · intro x hx hxne
        subst hx
        have := h4 (by simp [truthy, hxne])
        simpa using this
    case HOLD =>
      unfold mkTradingSignal at h
      dsimp only at h
      split_ifs at h with h1 h2
      push_neg at h1
      obtain rfl : _ = s := by simpa using h
      exact ⟨⟨h1.1, h1.2, not_le.mp h2⟩, by simp, by simp⟩

/-- C1 (witness): the amended invariant applied to a concrete emitted buy
signal (positive ATR and multipliers) and to a concrete successfully
constructed BUY `TradingSignal`. -/
theorem C1_witness :
    ((0 : ℚ) < (3/2 : ℚ) ∧ (0 : ℚ) < (16/5 : ℚ) ∧ (0 : ℚ) < (1 : ℚ)) ∧
      (let s := generateTradingSignalHybrid [] ⟨"uptrend"⟩ [obBull]
          dpDiscount manipOn (indBuy 1) ⟨6000000⟩ {}
       (0 ≤ s.confidence ∧ s.confidence ≤ 1) ∧
       (s.action = "buy" →
         s.stop_loss < s.entry_price ∧ s.entry_price < s.take_profit) ∧
       (s.action = "sell" →
         s.take_profit < s.entry_price ∧ s.entry_price < s.stop_loss)) ∧
      ((0 ≤ sigBuySample.confidence ∧ sigBuySample.confidence ≤ 1 ∧
          0 < sigBuySample.price) ∧
       (sigBuySample.signal_type = .BUY →
         (∀ x, sigBuySample.stop_loss = some x → x ≠ 0 →
           x < sigBuySample.price) ∧
         (∀ x, sigBuySample.take_profit = some x → x ≠ 0 →
           sigBuySample.price < x)) ∧
       (sigBuySample.signal_type = .SELL →
         (∀ x, sigBuySample.stop_loss = some x → x ≠ 0 →
           sigBuySample.price < x) ∧
         (∀ x, sigBuySample.take_profit = some x → x ≠ 0 →
           x < sigBuySample.price))) :=
  ⟨⟨by norm_num, by norm_num, by norm_num⟩,
    C1_signal_invariants.1 [] ⟨"uptrend"⟩ [obBull] dpDiscount manipOn
      (indBuy 1) ⟨6000000⟩ {} (by norm_num) (by norm_num)
      (by norm_num [indBuy]),
    C1_signal_invariants.2 "BTC/USDT" .BUY 0 100 95 .BULLISH (1/2) (some 95)
      (some 110) "1h" sigBuySample
      (by norm_num [mkTradingSignal, truthy, sigBuySample])⟩

lemma generateSignal_map_signal_type (symbol : String)
    (current_close current_supertrend : ℚ) (current_dir prev_dir : Int)
    (sr : SRLevels) (htf : TrendDirection) :
    (generateSignal symbol current_close current_supertrend current_dir
        prev_dir sr htf).1.map TASignal.signal_type =
      (crossoverDecision symbol current_dir prev_dir htf).1 := by
  unfold generateSignal
  rcases h : crossoverDecision symbol current_dir prev_dir htf with
    ⟨_ | ty, logs⟩ <;> simp [h]

/-! ## C2 — crossover transition rule -/

/-- C2 (counterexample): a supertrend flip from `-1` to `+1` does not by
itself produce a BUY signal: with a bearish higher-timeframe trend the
engine returns `None`, so "transitions to BUY exactly when the direction
flips from bearish to bullish" fails as stated. -/
theorem C2_counterexample :
    ((1 : Int) = 1 ∧ (-1 : Int) = -1) ∧
      (generateSignal "BTC/USDT" 100 90 1 (-1) ⟨none, none⟩ .BEARISH).1 =
        none := by
  refine ⟨⟨rfl, rfl⟩, ?_⟩
  norm_num +decide [generateSignal, crossoverDecision, taTakeProfit, truthy]

/-- C2 (amended): the engine decides BUY exactly when the supertrend
direction flips from `-1` to `+1` and the higher-timeframe trend is
bullish, SELL exactly on the opposite flip with a bearish higher-timeframe
trend, and on every non-flip direction pair it emits no signal regardless
of the higher-timeframe trend. -/
theorem C2_crossover_rule (symbol : String)
    (current_close current_supertrend : ℚ) (current_dir prev_dir : Int)
    (sr : SRLevels) (htf : TrendDirection) :
    ((generateSignal symbol current_close current_supertrend current_dir
        prev_dir sr htf).1.map TASignal.signal_type = some .BUY ↔
      current_dir = 1 ∧ prev_dir = -1 ∧ htf = .BULLISH) ∧
    ((generateSignal symbol current_close current_supertrend current_dir
        prev_dir sr htf).1.map TASignal.signal_type = some .SELL ↔
      current_dir = -1 ∧ prev_dir = 1 ∧ htf = .BEARISH) ∧
    (¬((current_dir = 1 ∧ prev_dir = -1) ∨
        (current_dir = -1 ∧ prev_dir = 1)) →
      (generateSignal symbol current_close current_supertrend current_dir
        prev_dir sr htf).1 = none) := by
  rw [show (generateSignal symbol current_close current_supertrend
      current_dir prev_dir sr htf).1 = none ↔
      (generateSignal symbol current_close current_supertrend current_dir
        prev_dir sr htf).1.map TASignal.signal_type = none from
    (Option.map_eq_none').symm]
  rw [generateSignal_map_signal_type]
  unfold crossoverDecision
  split_ifs with h1 h2 h3 h4
  · refine ⟨iff_of_true rfl ⟨h1.1, h1.2, h2⟩, ?_, ?_⟩
    · refine iff_of_false (by simp) ?_
      rintro ⟨hc, -, -⟩
      omega
    · intro hn
      exact absurd (Or.inl h1) hn
  · refine ⟨?_, ?_, ?_⟩
    · refine iff_of_false (by simp) ?_
      rintro ⟨-, -, hb⟩
      exact h2 hb
    · refine iff_of_false (by simp) ?_
      rintro ⟨hc, -, -⟩
      omega
    · intro hn
      exact absurd (Or.inl h1) hn
  · refine ⟨?_, iff_of_true rfl ⟨h3.1, h3.2, h4⟩, ?_⟩
    · refine iff_of_false (by simp) ?_
      rintro ⟨hc, -, -⟩
      omega
    · intro hn
      exact absurd (Or.inr h3) hn
  · refine ⟨?_, ?_, ?_⟩
    · refine iff_of_false (by simp) ?_
      rintro ⟨hc, -, -⟩
      omega
    · refine iff_of_false (by simp) ?_
      rintro ⟨-, -, hb⟩
      exact h4 hb
    · intro hn
      exact absurd (Or.inr h3) hn
  · refine ⟨?_, ?_, fun _ => rfl⟩
    · refine iff_of_false (by simp) ?_
      rintro ⟨hc, hp, -⟩
      exact h1 ⟨hc, hp⟩
    · refine iff_of_false (by simp) ?_
      rintro ⟨hc, hp, -⟩
      exact h3 ⟨hc, hp⟩

/-- C2 (witness): the amended rule applied to a non-flip direction pair
(both snapshots already bullish): no signal. -/
theorem C2_witness :
    ¬(((1 : Int) = 1 ∧ (1 : Int) = -1) ∨
        ((1 : Int) = -1 ∧ (1 : Int) = 1)) ∧
      (generateSignal "BTC/USDT" 100 90 1 1 ⟨none, none⟩ .BULLISH).1 =
        none :=
  ⟨by decide,
    (C2_crossover_rule "BTC/USDT" 100 90 1 1 ⟨none, none⟩ .BULLISH).2.2
      (by decide)⟩
/-! ## C3 — multi-timeframe confirmation -/

/-- C3 (counterexample): on a primary-timeframe BUY crossover with a
disagreeing higher timeframe the engine returns `None`, so no signal exists
whose `supportingFactors` could record the conflict (the signal type has no
such field); the conflict is only written to the service log. -/
theorem C3_counterexample :
    ¬conflictRecordedInEmittedSignal
        (generateSignal "ETH/USDT" 100 90 1 (-1) ⟨none, none⟩ .NEUTRAL).1 ∧
      "IGNORING BUY signal for ETH/USDT. 1h trend conflicts with 4h trend."
        ∈ (generateSignal "ETH/USDT" 100 90 1 (-1) ⟨none, none⟩
            .NEUTRAL).2 := by
  have h : generateSignal "ETH/USDT" 100 90 1 (-1) ⟨none, none⟩ .NEUTRAL =
      (none,
        ["IGNORING BUY signal for ETH/USDT. 1h trend conflicts with 4h trend."]) := by
    norm_num +decide [generateSignal, crossoverDecision, truthy]
  rw [h]
  exact ⟨fun ⟨s, hs⟩ => by simp at hs, by simp⟩

/-- C3 (amended): a primary-timeframe crossover is honored only when the
higher timeframe's trend agrees (BUY needs bullish, SELL needs bearish);
on disagreement the engine returns `None` (hold) and records the conflict
in a log line — not in any signal field, since the signal type has no
`supportingFactors`. -/
theorem C3_higher_timeframe_confirmation (symbol : String)
    (current_close current_supertrend : ℚ) (current_dir prev_dir : Int)
    (sr : SRLevels) (htf : TrendDirection) :
    (current_dir = 1 → prev_dir = -1 → htf = .BULLISH →
      ∃ s, (generateSignal symbol current_close current_supertrend
        current_dir prev_dir sr htf).1 = some s ∧ s.signal_type = .BUY) ∧
    (current_dir = 1 → prev_dir = -1 → htf ≠ .BULLISH →
      (generateSignal symbol current_close current_supertrend current_dir
        prev_dir sr htf).1 = none ∧
      ("IGNORING BUY signal for " ++ symbol ++
        ". 1h trend conflicts with 4h trend.") ∈
        (generateSignal symbol current_close current_supertrend current_dir
          prev_dir sr htf).2) ∧
    (current_dir = -1 → prev_dir = 1 → htf = .BEARISH →
      ∃ s, (generateSignal symbol current_close current_supertrend
        current_dir prev_dir sr htf).1 = some s ∧ s.signal_type = .SELL) ∧
    (current_dir = -1 → prev_dir = 1 → htf ≠ .BEARISH →
      (generateSignal symbol current_close current_supertrend current_dir
        prev_dir sr htf).1 = none ∧
      ("IGNORING SELL signal for " ++ symbol ++
        ". 1h trend conflicts with 4h trend.") ∈
        (generateSignal symbol current_close current_supertrend current_dir
          prev_dir sr htf).2) := by
  refine ⟨?_, ?_, ?_, ?_⟩
  · intro h1 h2 h3
    have hcd : crossoverDecision symbol current_dir prev_dir htf =
        (some .BUY, ["CONFIRMED BUY signal for " ++ symbol]) := by
      unfold crossoverDecision
      rw [if_pos ⟨h1, h2⟩, if_pos h3]
    unfold generateSignal
    rw [hcd]
    exact ⟨_, rfl, rfl⟩
  · intro h1 h2 h3
    have hcd : crossoverDecision symbol current_dir prev_dir htf =
        (none, ["IGNORING BUY signal for " ++ symbol ++
          ". 1h trend conflicts with 4h trend."]) := by
      unfold crossoverDecision
      rw [if_pos ⟨h1, h2⟩, if_neg h3]
    unfold generateSignal
    rw [hcd]
    exact ⟨rfl, by simp⟩
  · intro h1 h2 h3
    have hflip : ¬(current_dir = 1 ∧ prev_dir = -1) := by
      rintro ⟨hc, -⟩
      omega
    have hcd : crossoverDecision symbol current_dir prev_dir htf =
        (some .SELL, ["CONFIRMED SELL signal for " ++ symbol]) := by
      unfold crossoverDecision
      rw [if_neg hflip, if_pos ⟨h1, h2⟩, if_pos h3]
    unfold generateSignal
    rw [hcd]
    exact ⟨_, rfl, rfl⟩
  · intro h1 h2 h3
    have hflip : ¬(current_dir = 1 ∧ prev_dir = -1) := by
      rintro ⟨hc, -⟩
      omega
    have hcd : crossoverDecision symbol current_dir prev_dir htf =
        (none, ["IGNORING SELL signal for " ++ symbol ++
          ". 1h trend conflicts with 4h trend."]) := by
      unfold crossoverDecision
      rw [if_neg hflip, if_pos ⟨h1, h2⟩, if_neg h3]
    unfold generateSignal
    rw [hcd]
    exact ⟨rfl, by simp⟩

/-- C3 (witness): the amended statement applied to a concrete disagreeing
BUY crossover (higher timeframe bearish). -/
theorem C3_witness :
    (1 : Int) = 1 ∧ (-1 : Int) = -1 ∧
      (TrendDirection.BEARISH ≠ TrendDirection.BULLISH) ∧
      ((generateSignal "SOL/USDT" 100 90 1 (-1) ⟨none, none⟩ .BEARISH).1 =
          none ∧
        ("IGNORING BUY signal for " ++ "SOL/USDT" ++
          ". 1h trend conflicts with 4h trend.") ∈
          (generateSignal "SOL/USDT" 100 90 1 (-1) ⟨none, none⟩
            .BEARISH).2) :=
  ⟨rfl, rfl, by decide,
    (C3_higher_timeframe_confirmation "SOL/USDT" 100 90 1 (-1) ⟨none, none⟩
      .BEARISH).2.1 rfl rfl (by decide)⟩
lemma taTakeProfit_buy (symbol : String) (price st : ℚ) (sr : SRLevels)
    (hp : 0 < price) :
    (∀ res, sr.resistance = some res →
      price + |price - st| * (1/5) < res →
      (taTakeProfit symbol .BUY price st sr).1 =
        min (price + |price - st| * (3/2)) res) ∧
    price + |price - st| * (1/5) ≤ (taTakeProfit symbol .BUY price st sr).1 := by
  have hrisk : (0 : ℚ) ≤ |price - st| := abs_nonneg _
  unfold taTakeProfit
  dsimp only
  simp only [eq_self_iff_true, if_true]
  split_ifs with hres hadj hadj <;> dsimp only
  · constructor
    · intro res hr hlt
      rw [hr] at hres hadj
      simp only [Option.getD_some] at hres hadj
      have hresgt : price < res := by linarith
      have hpot : price + |price - st| * (3/2) = price := by
        rcases min_choice (price + |price - st| * (3/2)) res with hmc | hmc <;>
          rw [hmc] at hadj
        · exact hadj
        · exact absurd hadj (ne_of_gt hresgt)
      rw [hadj, hpot]
    · linarith
  · constructor
    · intro res hr hlt
      rw [hr]
      simp only [Option.getD_some]
    · exact le_min (by linarith) (le_of_lt hres.2)
  · constructor
    · intro res hr hlt
      rw [hr] at hres
      push_neg at hres
      have htr : truthy (some res) = true := by
        simp only [truthy, decide_eq_true_eq]
        intro h0
        rw [h0] at hlt
        linarith
      have hle := hres htr
      simp only [Option.getD_some] at hle
      exact absurd hle (not_le.mpr hlt)
    · linarith
  · constructor
    · intro res hr hlt
      rw [hr] at hres
      push_neg at hres
      have htr : truthy (some res) = true := by
        simp only [truthy, decide_eq_true_eq]
        intro h0
        rw [h0] at hlt
        linarith
      have hle := hres htr
      simp only [Option.getD_some] at hle
      exact absurd hle (not_le.mpr hlt)
    · linarith
lemma taTakeProfit_sell (symbol : String) (price st : ℚ) (sr : SRLevels)
    (hp : 0 < price) :
    (∀ sup, sr.support = some sup → 0 < sup →
      sup < price - |price - st| * (1/5) →
      (taTakeProfit symbol .SELL price st sr).1 =
        max (price - |price - st| * (3/2)) sup) ∧
    (taTakeProfit symbol .SELL price st sr).1 ≤
      price - |price - st| * (1/5) := by
  have hrisk : (0 : ℚ) ≤ |price - st| := abs_nonneg _
  unfold taTakeProfit
  dsimp only
  simp only [reduceCtorEq, if_false]
  split_ifs with hsup hadj hadj <;> dsimp only
  · constructor
    · intro sup hr hpos hlt
      rw [hr] at hsup hadj
      simp only [Option.getD_some] at hsup hadj
      have hsuplt : sup < price := by linarith
      have hpot : price - |price - st| * (3/2) = price := by
        rcases max_choice (price - |price - st| * (3/2)) sup with hmc | hmc <;>
          rw [hmc] at hadj
        · exact hadj
        · exact absurd hadj (ne_of_lt hsuplt)
      rw [hadj, hpot]
    · linarith
  · constructor
    · intro sup hr hpos hlt
      rw [hr]
      simp only [Option.getD_some]
    · exact max_le (by linarith) (le_of_lt hsup.2)
  · constructor
    · intro sup hr hpos hlt
      rw [hr] at hsup
      push_neg at hsup
      have htr : truthy (some sup) = true := by
        simp only [truthy, decide_eq_true_eq]
        exact ne_of_gt hpos
      have hle := hsup htr
      simp only [Option.getD_some] at hle
      exact absurd hle (not_le.mpr hlt)
    · linarith
  · constructor
    · intro sup hr hpos hlt
      rw [hr] at hsup
      push_neg at hsup
      have htr : truthy (some sup) = true := by
        simp only [truthy, decide_eq_true_eq]
        exact ne_of_gt hpos
      have hle := hsup htr
      simp only [Option.getD_some] at hle
      exact absurd hle (not_le.mpr hlt)
    · linarith
/-! ## C4 — take-profit placement -/

/-- C4 (counterexample): the take-profit is NOT always
`min(rr_target, nearest_resistance)`.  For a BUY crossover at price 100
with supertrend 90 (risk 10) and a resistance at 101, the resistance lies
below the minimum partial target 102, so the code ignores it and returns
the full R/R target 115, while `min(115, 101) = 101`. -/
theorem C4_counterexample :
    (generateSignal "SOL/USDT" 100 90 1 (-1) ⟨none, some 101⟩
        .BULLISH).1.map TASignal.take_profit = some 115 ∧
      min ((100 : ℚ) + |(100 : ℚ) - 90| * (3/2)) 101 = 101 ∧
      (115 : ℚ) ≠ 101 := by
  refine ⟨?_, ?_, by norm_num⟩
  · norm_num +decide [generateSignal, crossoverDecision, taTakeProfit,
      truthy]
  · rw [abs_of_nonneg (by norm_num : (0:ℚ) ≤ 100 - 90)]
    norm_num

/-- C4 (amended): for every emitted signal, when the nearest resistance
(BUY) lies strictly above the minimum partial target
`entry + 0.2 × risk`, the take-profit equals
`min(entry + 1.5 × risk, resistance)`, and otherwise the resistance is
ignored; in every case the BUY take-profit is at least
`entry + 0.2 × risk`.  Mirrored for SELL with the nearest (positive)
support and `max`, where the SELL take-profit is at most
`entry − 0.2 × risk`. -/
theorem C4_take_profit_rule (symbol : String)
    (current_close current_supertrend : ℚ) (current_dir prev_dir : Int)
    (sr : SRLevels) (htf : TrendDirection) (hp : 0 < current_close) :
    ∀ s, (generateSignal symbol current_close current_supertrend current_dir
        prev_dir sr htf).1 = some s →
      (s.signal_type = .BUY →
        (∀ res, sr.resistance = some res →
          current_close + |current_close - current_supertrend| * (1/5) <
            res →
          s.take_profit =
            min (current_close +
              |current_close - current_supertrend| * (3/2)) res) ∧
        current_close + |current_close - current_supertrend| * (1/5) ≤
          s.take_profit) ∧
      (s.signal_type = .SELL →
        (∀ sup, sr.support = some sup → 0 < sup →
          sup < current_close -
            |current_close - current_supertrend| * (1/5) →
          s.take_profit =
            max (current_close -
              |current_close - current_supertrend| * (3/2)) sup) ∧
        s.take_profit ≤
          current_close - |current_close - current_supertrend| * (1/5)) := by
  intro s h
  unfold generateSignal at h
  rcases hcd : crossoverDecision symbol current_dir prev_dir htf with
    ⟨_ | ty, logs⟩ <;> rw [hcd] at h
  · simp at h
  · dsimp only at h
    obtain rfl : _ = s := by simpa using h
    dsimp only
    constructor
    · intro hty
      rw [hty]
      exact taTakeProfit_buy symbol current_close current_supertrend sr hp
    · intro hty
      rw [hty]
      exact taTakeProfit_sell symbol current_close current_supertrend sr hp

/-- C4 (witness): the amended rule applied to a concrete BUY crossover at
price 100, supertrend 90 and resistance 120 (above the minimum target), so
the emitted take-profit is `min(115, 120) = 115`. -/
theorem C4_witness :
    (0 : ℚ) < 100 ∧
      ((taSig115.signal_type = .BUY →
        (∀ res, (⟨none, some 120⟩ : SRLevels).resistance = some res →
          (100 : ℚ) + |(100 : ℚ) - 90| * (1/5) < res →
          taSig115.take_profit =
            min ((100 : ℚ) + |(100 : ℚ) - 90| * (3/2)) res) ∧
        (100 : ℚ) + |(100 : ℚ) - 90| * (1/5) ≤ taSig115.take_profit) ∧
      (taSig115.signal_type = .SELL →
        (∀ sup, (⟨none, some 120⟩ : SRLevels).support = some sup → 0 < sup →
          sup < (100 : ℚ) - |(100 : ℚ) - 90| * (1/5) →
          taSig115.take_profit =
            max ((100 : ℚ) - |(100 : ℚ) - 90| * (3/2)) sup) ∧
        taSig115.take_profit ≤
          (100 : ℚ) - |(100 : ℚ) - 90| * (1/5))) :=
  ⟨by norm_num,
    C4_take_profit_rule "BTC/USDT" 100 90 1 (-1) ⟨none, some 120⟩ .BULLISH
      (by norm_num) taSig115
      (by norm_num +decide [generateSignal, crossoverDecision, taTakeProfit,
        truthy, taSig115])⟩
/-! ## C5 — confidence scoring and threshold gate -/

/-- C5: the hybrid confidence starts from the 0.5 base and accumulates
non-negative increments, is clamped at 1, and a non-hold action is emitted
only when the clamped score reaches the configured minimum
(`min_confidence_for_signal`, default 0.75); every evaluation below the
threshold keeps the hold action. -/
theorem C5_threshold_gate (df : List Candle) (struct : StructureResult)
    (order_blocks : List OrderBlock) (dp : DiscountPremiumResult)
    (manip : ManipulationResult) (ind : Indicators) (md : MarketInfo)
    (cfg : StrategyConfig) :
    (generateTradingSignalHybrid df struct order_blocks dp manip ind md
      cfg).confidence ≤ 1 ∧
    ((generateTradingSignalHybrid df struct order_blocks dp manip ind md
        cfg).action ≠ "hold" →
      cfg.min_confidence_for_signal ≤
        (generateTradingSignalHybrid df struct order_blocks dp manip ind md
          cfg).confidence ∧
      1/2 ≤ (generateTradingSignalHybrid df struct order_blocks dp manip ind
        md cfg).confidence) := by
  unfold generateTradingSignalHybrid
  have hbuy := hybridBuyScore_ge_half dp ind md
  have hsell := hybridSellScore_ge_half dp ind md
  split_ifs with h1 h2
  · split
    · exact ⟨by norm_num, fun hn => absurd rfl hn⟩
    · dsimp only
      split_ifs with hc hrr
      · exact ⟨min_le_right _ _,
          fun _ => ⟨hc, le_min (by linarith) (by norm_num)⟩⟩
      · exact ⟨min_le_right _ _,
          fun _ => ⟨hc, le_min (by linarith) (by norm_num)⟩⟩
      · exact ⟨by norm_num, fun hn => absurd rfl hn⟩
  · split
    · exact ⟨by norm_num, fun hn => absurd rfl hn⟩
    · dsimp only
      split_ifs with hc hrr
      · exact ⟨min_le_right _ _,
          fun _ => ⟨hc, le_min (by linarith) (by norm_num)⟩⟩
      · exact ⟨min_le_right _ _,
          fun _ => ⟨hc, le_min (by linarith) (by norm_num)⟩⟩
      · exact ⟨by norm_num, fun hn => absurd rfl hn⟩
  · exact ⟨by norm_num, fun hn => absurd rfl hn⟩

/-- C5 (witness): a concrete evaluation that emits a buy whose confidence
meets the default 0.75 threshold. -/
theorem C5_witness :
    (generateTradingSignalHybrid [] ⟨"uptrend"⟩ [obBull] dpDiscount manipOn
        (indBuy 1) ⟨6000000⟩ {}).action = "buy" ∧
      (({} : StrategyConfig).min_confidence_for_signal ≤
        (generateTradingSignalHybrid [] ⟨"uptrend"⟩ [obBull] dpDiscount
          manipOn (indBuy 1) ⟨6000000⟩ {}).confidence ∧
      1/2 ≤ (generateTradingSignalHybrid [] ⟨"uptrend"⟩ [obBull] dpDiscount
        manipOn (indBuy 1) ⟨6000000⟩ {}).confidence) :=
  ⟨by norm_num [generateTradingSignalHybrid, hybridBuyScore, maxByConfidence,
      obBull, dpDiscount, indBuy, manipOn, List.filter],
    (C5_threshold_gate [] ⟨"uptrend"⟩ [obBull] dpDiscount manipOn (indBuy 1)
      ⟨6000000⟩ {}).2
      (by norm_num +decide [generateTradingSignalHybrid, hybridBuyScore,
        maxByConfidence, obBull, dpDiscount, indBuy, manipOn, List.filter])⟩
lemma classifyTerritory_spec (p a b c d : ℚ) (hab : a ≤ b) (hbc : b ≤ c)
    (hcd : c ≤ d) :
    (classifyTerritory p a b c d = .deep_discount ↔ p < a) ∧
    (classifyTerritory p a b c d = .discount ↔ a ≤ p ∧ p < b) ∧
    (classifyTerritory p a b c d = .equilibrium ↔ b ≤ p ∧ p ≤ c) ∧
    (classifyTerritory p a b c d = .premium ↔ c < p ∧ p ≤ d) ∧
    (classifyTerritory p a b c d = .deep_premium ↔ d < p) := by
  unfold classifyTerritory
  split_ifs with h1 h2 h3 h4 <;>
    refine ⟨?_, ?_, ?_, ?_, ?_⟩ <;>
    first
      | exact iff_of_true rfl (by constructor <;> linarith)
      | exact iff_of_true rfl (by linarith)
      | exact iff_of_false (by simp) (by rintro ⟨h5, h6⟩; linarith)
      | exact iff_of_false (by simp) (by intro h5; linarith)

/-! ## C6 — discount/premium Fibonacci classification -/

/-- C6: over the most recent 50 candles the analyzer takes the highest high
`H` and lowest low `L`, and (for a non-degenerate range) classifies the
last close into exactly one of the five territories with the Fibonacci
fractions 23.6 %, 38.2 %, 61.8 % and 76.4 % of the range as boundaries —
not simple halves. -/
theorem C6_discount_premium_fib (df : List Candle) (ind : Indicators)
    (lastRow : Candle) (hlast : df.getLast? = some lastRow)
    (hlen : 50 ≤ df.length)
    (hrange : seriesMin ((tailN 50 df).map Candle.low) <
      seriesMax ((tailN 50 df).map Candle.high)) :
    (checkDiscountPremium df ind).swing_high =
      some (seriesMax ((tailN 50 df).map Candle.high)) ∧
    (checkDiscountPremium df ind).swing_low =
      some (seriesMin ((tailN 50 df).map Candle.low)) ∧
    ((checkDiscountPremium df ind).territory = .deep_discount ↔
      lastRow.close < seriesMin ((tailN 50 df).map Candle.low) +
        (seriesMax ((tailN 50 df).map Candle.high) -
          seriesMin ((tailN 50 df).map Candle.low)) * (236/1000)) ∧
    ((checkDiscountPremium df ind).territory = .discount ↔
      seriesMin ((tailN 50 df).map Candle.low) +
        (seriesMax ((tailN 50 df).map Candle.high) -
          seriesMin ((tailN 50 df).map Candle.low)) * (236/1000) ≤
        lastRow.close ∧
      lastRow.close < seriesMin ((tailN 50 df).map Candle.low) +
        (seriesMax ((tailN 50 df).map Candle.high) -
          seriesMin ((tailN 50 df).map Candle.low)) * (382/1000)) ∧
    ((checkDiscountPremium df ind).territory = .equilibrium ↔
      seriesMin ((tailN 50 df).map Candle.low) +
        (seriesMax ((tailN 50 df).map Candle.high) -
          seriesMin ((tailN 50 df).map Candle.low)) * (382/1000) ≤
        lastRow.close ∧
      lastRow.close ≤ seriesMin ((tailN 50 df).map Candle.low) +
        (seriesMax ((tailN 50 df).map Candle.high) -
          seriesMin ((tailN 50 df).map Candle.low)) * (618/1000)) ∧
    ((checkDiscountPremium df ind).territory = .premium ↔
      seriesMin ((tailN 50 df).map Candle.low) +
        (seriesMax ((tailN 50 df).map Candle.high) -
          seriesMin ((tailN 50 df).map Candle.low)) * (618/1000) <
        lastRow.close ∧
      lastRow.close ≤ seriesMin ((tailN 50 df).map Candle.low) +
        (seriesMax ((tailN 50 df).map Candle.high) -
          seriesMin ((tailN 50 df).map Candle.low)) * (764/1000)) ∧
    ((checkDiscountPremium df ind).territory = .deep_premium ↔
      seriesMin ((tailN 50 df).map Candle.low) +
        (seriesMax ((tailN 50 df).map Candle.high) -
          seriesMin ((tailN 50 df).map Candle.low)) * (764/1000) <
        lastRow.close) := by
  have hlb : min 50 df.length = 50 := Nat.min_eq_left hlen
  set H := seriesMax ((tailN 50 df).map Candle.high) with hH
  set L := seriesMin ((tailN 50 df).map Candle.low) with hL
  have hr0 : (0 : ℚ) ≤ H - L := by linarith
  have hspec := classifyTerritory_spec lastRow.close
    (L + (H - L) * (236/1000)) (L + (H - L) * (382/1000))
    (L + (H - L) * (618/1000)) (L + (H - L) * (764/1000))
    (by nlinarith) (by nlinarith) (by nlinarith)
  unfold checkDiscountPremium
  rw [hlast]
  dsimp only
  rw [hlb, ← hH, ← hL]
  split_ifs with h0
  · exfalso
    rw [sub_eq_zero] at h0
    rw [h0] at hrange
    exact lt_irrefl _ hrange
  all_goals exact ⟨rfl, rfl, hspec.1, hspec.2.1, hspec.2.2.1,
    hspec.2.2.2.1, hspec.2.2.2.2⟩

set_option maxRecDepth 4000 in
/-- C6 (witness): the classification applied to a concrete 50-candle series
with range 0–10 and last close 5, which lands in the golden-band
equilibrium (between 38.2 % and 61.8 % of the range). -/
theorem C6_witness :
    dfW.getLast? = some candleW ∧ 50 ≤ dfW.length ∧
      seriesMin ((tailN 50 dfW).map Candle.low) <
        seriesMax ((tailN 50 dfW).map Candle.high) ∧
      (checkDiscountPremium dfW indNeutral).territory = .equilibrium := by
  have hH : seriesMax ((tailN 50 dfW).map Candle.high) = 10 := by decide
  have hL : seriesMin ((tailN 50 dfW).map Candle.low) = 0 := by decide
  have hc := C6_discount_premium_fib dfW indNeutral candleW (by decide)
    (by decide) (by rw [hH, hL]; norm_num)
  refine ⟨by decide, by decide, by rw [hH, hL]; norm_num, ?_⟩
  exact hc.2.2.2.2.1.mpr (by rw [hH, hL]; norm_num [candleW])

lemma foldl_max_const {a : ℚ} : ∀ l : List ℚ, (∀ x ∈ l, x = a) →
    l.foldl max a = a
  | [], _ => rfl
  | x :: xs, h => by
    rw [List.foldl_cons, h x (by simp), max_self]
    exact foldl_max_const xs fun y hy => h y (by simp [hy])

lemma foldl_min_const {a : ℚ} : ∀ l : List ℚ, (∀ x ∈ l, x = a) →
    l.foldl min a = a
  | [], _ => rfl
  | x :: xs, h => by
    rw [List.foldl_cons, h x (by simp), min_self]
    exact foldl_min_const xs fun y hy => h y (by simp [hy])

lemma seriesMax_const {a : ℚ} {l : List ℚ} (hne : l ≠ [])
    (h : ∀ x ∈ l, x = a) : seriesMax l = a := by
  cases l with
  | nil => exact absurd rfl hne
  | cons x xs =>
    unfold seriesMax
    rw [h x (by simp)]
    exact foldl_max_const xs fun y hy => h y (by simp [hy])

lemma seriesMin_const {a : ℚ} {l : List ℚ} (hne : l ≠ [])
    (h : ∀ x ∈ l, x = a) : seriesMin l = a := by
  cases l with
  | nil => exact absurd rfl hne
  | cons x xs =>
    unfold seriesMin
    rw [h x (by simp)]
    exact foldl_min_const xs fun y hy => h y (by simp [hy])

/-! ## C8 — degenerate zero-range guard -/

/-- C8: on a flat zero-variance series (every candle identical with
`high = low`) the discount/premium analyzer takes the guarded zero-range
branch — returning the neutral `equilibrium` classification with
`percentage_in_range = 50` instead of dividing by the range — and the
signal engine evaluated on that zone context returns `hold` for every
other input. -/
theorem C8_flat_series_hold (df : List Candle) (c : Candle) (hne : df ≠ [])
    (hflat : ∀ x ∈ df, x = c) (hhl : c.high = c.low) (ind : Indicators)
    (struct : StructureResult) (obs : List OrderBlock)
    (manip : ManipulationResult) (md : MarketInfo) (cfg : StrategyConfig) :
    checkDiscountPremium df ind =
      { territory := .equilibrium, current_price := c.close,
        percentage_in_range := 50 } ∧
    (generateTradingSignalHybrid df struct obs (checkDiscountPremium df ind)
      manip ind md cfg).action = "hold" := by
  have hlast : df.getLast? = some c := by
    rcases hg : df.getLast? with _ | x
    · rw [List.getLast?_eq_none_iff] at hg
      exact absurd hg hne
    · rw [hflat x (List.mem_of_getLast?_eq_some hg)]
  have hlen1 : 1 ≤ df.length := by
    cases df
    · exact absurd rfl hne
    · simp
  have hreclen : (tailN (min 50 df.length) df).length = min 50 df.length := by
    simp only [tailN, List.length_drop]
    omega
  have hrecne : tailN (min 50 df.length) df ≠ [] := by
    rw [← List.length_pos]
    rw [hreclen]
    omega
  have hdp : checkDiscountPremium df ind =
      { territory := .equilibrium, current_price := c.close,
        percentage_in_range := 50 } := by
    unfold checkDiscountPremium
    rw [hlast]
    dsimp only
    have hmax : seriesMax ((tailN (min 50 df.length) df).map Candle.high) =
        c.high := by
      apply seriesMax_const
      · simp [hrecne]
      · intro x hx
        rcases List.mem_map.mp hx with ⟨y, hy, rfl⟩
        rw [hflat y (List.drop_subset _ _ hy)]
    have hmin : seriesMin ((tailN (min 50 df.length) df).map Candle.low) =
        c.low := by
      apply seriesMin_const
      · simp [hrecne]
      · intro x hx
        rcases List.mem_map.mp hx with ⟨y, hy, rfl⟩
        rw [hflat y (List.drop_subset _ _ hy)]
    rw [hmax, hmin]
    rw [if_pos (by rw [hhl, sub_self])]
  refine ⟨hdp, ?_⟩
  rw [hdp]
  simp [generateTradingSignalHybrid]

set_option maxRecDepth 8000 in
/-- C8 (witness): the degenerate-range guard applied to a concrete flat
series of 60 identical candles. -/
theorem C8_witness :
    dfFlat ≠ [] ∧ (∀ x ∈ dfFlat, x = flatCandle) ∧
      flatCandle.high = flatCandle.low ∧
      (checkDiscountPremium dfFlat indNeutral =
        { territory := .equilibrium, current_price := flatCandle.close,
          percentage_in_range := 50 } ∧
      (generateTradingSignalHybrid dfFlat ⟨"sideways"⟩ []
        (checkDiscountPremium dfFlat indNeutral) manipOn indNeutral ⟨0⟩
        {}).action = "hold") :=
  ⟨by decide, by decide, rfl,
    C8_flat_series_hold dfFlat flatCandle (by decide) (by decide) rfl
      indNeutral ⟨"sideways"⟩ [] manipOn ⟨0⟩ {}⟩

lemma insertByConfDesc_perm (ob : OrderBlock) :
    ∀ l : List OrderBlock, List.Perm (insertByConfDesc ob l) (ob :: l)
  | [] => List.Perm.refl _
  | h :: t => by
    unfold insertByConfDesc
    split_ifs
    · exact ((insertByConfDesc_perm ob t).cons h).trans
        (List.Perm.swap ob h t)
    · exact List.Perm.refl _

lemma sortByConfDesc_perm :
    ∀ l : List OrderBlock, List.Perm (sortByConfDesc l) l
  | [] => List.Perm.refl _
  | h :: t => by
    unfold sortByConfDesc
    exact (insertByConfDesc_perm h (sortByConfDesc t)).trans
      ((sortByConfDesc_perm t).cons h)

/-! ## C7 — order-block candidate filtering -/

/-- C7 (counterexample): a retained order block does not need a body of
~70 % of its range: on `dfOB` the engine retains a candidate whose body
(5) is exactly half its 10-point range — well below 70 % — because the
source's range filter is 50 % (`body_size < candle_range * 0.5`), with the
0.7 factor applying to the ATR instead. -/
theorem C7_counterexample :
    detectOrderBlocks dfOB ⟨"uptrend"⟩ indNeutral = [obW] ∧
      |(105 : ℚ) - 100| < (7/10) * ((110 : ℚ) - 100) := by
  constructor
  · norm_num +decide [detectOrderBlocks, orderBlockAt,
      calculateObConfidenceHybrid, seriesMean, seriesMax, seriesMin, tailN,
      sortByConfDesc, insertByConfDesc, dfOB, indNeutral, obW,
      List.range_succ, List.filterMap_cons, List.filterMap_nil]
  · rw [abs_of_nonneg (by norm_num : (0 : ℚ) ≤ 105 - 100)]
    norm_num

/-- C7 (amended): every retained order-block candidate comes from a candle
of the scanned 30-candle window at an index `i ∈ [3, len − 2]` whose volume
is at least 1.4× the window's average volume, whose body is at least half
its high-low range and strictly larger than 0.7 × ATR, whose direction
matches the prevailing trend (bullish candle in an uptrend / bearish in a
downtrend), and whose subsequent price action extends more than 1.5 %
beyond the candle's extreme; each candidate's confidence is the hybrid
confidence score, and at most 3 candidates (the top ones by confidence)
are returned. -/
theorem C7_order_block_rule (df : List Candle) (struct : StructureResult)
    (ind : Indicators) :
    (detectOrderBlocks df struct ind).length ≤ 3 ∧
    ∀ ob ∈ detectOrderBlocks df struct ind,
      ∃ i c, (tailN 30 df).get? i = some c ∧ 3 ≤ i ∧
        i < (tailN 30 df).length - 1 ∧ ob.timestamp = i ∧
        ob.high = c.high ∧ ob.low = c.low ∧ ob.volume = c.volume ∧
        seriesMean ((tailN 30 df).map Candle.volume) * (7/5) ≤ c.volume ∧
        (c.high - c.low) * (1/2) ≤ |c.close - c.open_| ∧
        ind.atr * (7/10) < |c.close - c.open_| ∧
        ob.confidence =
          calculateObConfidenceHybrid c (tailN 30 df) ob.type ind ∧
        ((ob.type = .bullish ∧ struct.trend = "uptrend" ∧
            c.open_ < c.close ∧
            c.high * (1015/1000) <
              seriesMax (((tailN 30 df).drop (i + 1)).map Candle.high)) ∨
         (ob.type = .bearish ∧ struct.trend = "downtrend" ∧
            c.close < c.open_ ∧
            seriesMin (((tailN 30 df).drop (i + 1)).map Candle.low) <
              c.low * (985/1000))) := by
  unfold detectOrderBlocks
  split_ifs with hside
  · exact ⟨by simp, by simp⟩
  · dsimp only
    constructor
    · exact List.length_take_le _ _
    · intro ob hob
      have h1 := List.take_subset _ _ hob
      have h2 := (sortByConfDesc_perm _).mem_iff.mp h1
      rcases List.mem_filterMap.mp h2 with ⟨i, hi, hmap⟩
      rcases List.mem_filter.mp hi with ⟨hrange, hcond⟩
      have hcond2 : 3 ≤ i ∧ i < (tailN 30 df).length - 1 := by
        simpa using hcond
      unfold orderBlockAt at hmap
      rcases hget : (tailN 30 df).get? i with _ | c
      · rw [hget] at hmap
        simp at hmap
      · rw [hget] at hmap
        dsimp only at hmap
        split_ifs at hmap with hskip hbull hfut hbear hfut2
        · push_neg at hskip
          obtain rfl : _ = ob := by simpa using hmap
          exact ⟨i, c, hget, hcond2.1, hcond2.2, rfl, rfl, rfl, rfl,
            hskip.1, hskip.2, hbull.2.2, rfl,
            Or.inl ⟨rfl, hbull.1, hbull.2.1, hfut.2⟩⟩
        · push_neg at hskip
          obtain rfl : _ = ob := by simpa using hmap
          exact ⟨i, c, hget, hcond2.1, hcond2.2, rfl, rfl, rfl, rfl,
            hskip.1, hskip.2, hbear.2.2, rfl,
            Or.inr ⟨rfl, hbear.1, hbear.2.1, hfut2.2⟩⟩

/-- C7 (witness): the amended rule applied to the retained candidate on
the concrete series `dfOB`. -/
theorem C7_witness :
    obW ∈ detectOrderBlocks dfOB ⟨"uptrend"⟩ indNeutral ∧
      (∃ i c, (tailN 30 dfOB).get? i = some c ∧ 3 ≤ i ∧
        i < (tailN 30 dfOB).length - 1 ∧ obW.timestamp = i ∧
        obW.high = c.high ∧ obW.low = c.low ∧ obW.volume = c.volume ∧
        seriesMean ((tailN 30 dfOB).map Candle.volume) * (7/5) ≤ c.volume ∧
        (c.high - c.low) * (1/2) ≤ |c.close - c.open_| ∧
        indNeutral.atr * (7/10) < |c.close - c.open_| ∧
        obW.confidence =
          calculateObConfidenceHybrid c (tailN 30 dfOB) obW.type
            indNeutral ∧
        ((obW.type = .bullish ∧
            (⟨"uptrend"⟩ : StructureResult).trend = "uptrend" ∧
            c.open_ < c.close ∧
            c.high * (1015/1000) <
              seriesMax (((tailN 30 dfOB).drop (i + 1)).map Candle.high)) ∨
         (obW.type = .bearish ∧
            (⟨"uptrend"⟩ : StructureResult).trend = "downtrend" ∧
            c.close < c.open_ ∧
            seriesMin (((tailN 30 dfOB).drop (i + 1)).map Candle.low) <
              c.low * (985/1000)))) := by
  have heval : detectOrderBlocks dfOB ⟨"uptrend"⟩ indNeutral = [obW] := by
    norm_num +decide [detectOrderBlocks, orderBlockAt,
      calculateObConfidenceHybrid, seriesMean, seriesMax, seriesMin, tailN,
      sortByConfDesc, insertByConfDesc, dfOB, indNeutral, obW,
      List.range_succ, List.filterMap_cons, List.filterMap_nil]
  have hmem : obW ∈ detectOrderBlocks dfOB ⟨"uptrend"⟩ indNeutral := by
    rw [heval]
    simp
  exact ⟨hmem,
    (C7_order_block_rule dfOB ⟨"uptrend"⟩ indNeutral).2 obW hmem⟩
